import Mathlib

/-
Shallow embedding of gogridfs (src/gogridfs.go): a small HTTP service that
resolves a request path to an object in a GridFS store (by `_id` or by
filename), drains the object into an in-memory buffer, and serves it back.

Modelling conventions:
- Go byte strings are modelled as Lean `String` (characters standing in for
  bytes); byte slicing `s[n:]` is modelled by `sliceFrom` on the character
  list, with the out-of-range panic made explicit at the call site.
- File content bytes are modelled as `List Nat`.
- The external mgo store is modelled by its interface as used by the code:
  `OpenId`/`Open` return either a handle or an error, a handle delivers a
  scripted sequence of `Read` results (each a chunk of bytes plus an
  optional error, `io.EOF` included), and `Close` returns an optional error.
- A Go function that can fail to return (an infinite read loop, a string
  index panic) is embedded with an explicit non-return constructor
  (`Option`, `HandlerOutcome.diverged`, `HandlerOutcome.panicked`).
-/

/-- An error value from the store client: `io.EOF` or any other error. -/
inductive GErr where
  | eof : GErr
  | other : String → GErr
deriving DecidableEq

/-- The result of one call to `gfsFile.Read(buffer)` (src/gogridfs.go:79):
the bytes placed into the buffer (`bytes_r = chunk.length`) and the
returned error, if any. -/
structure ReadStep where
  chunk : List Nat
  err : Option GErr
deriving DecidableEq

/-- Model of an `mgo.GridFile` handle: its logical name (`Name()`), the
scripted sequence of `Read` results it delivers, and the result of
`Close()`. -/
structure GridFile where
  name : String
  reads : List ReadStep
  closeErr : Option GErr

/-- Model of `mgo.GridFS` as used by the code: lookup by unique identifier
(`OpenId`, src/gogridfs.go:65) and lookup by filename (`Open`,
src/gogridfs.go:67). -/
structure GridFS where
  OpenId : String → Except GErr GridFile
  Open : String → Except GErr GridFile

/-- The `config` struct (src/gogridfs.go:34-44). -/
structure Config where
  Servers : List String
  Logfile : String
  Database : String
  GridFSCollection : String
  Field : String
  Listen : String
  HandlePath : String
  Debug : Bool
  Mode : String

/-- The `gridfile` struct (src/gogridfs.go:19-22): path and content. -/
structure gridfile where
  Path : String
  Data : List Nat

/-- The read loop of `getFile` (src/gogridfs.go:77-88): repeatedly call
`Read`; whenever `bytes_r > 0` append the chunk to the buffer; break on the
first non-nil error. `none` models the loop never terminating (the scripted
reads are exhausted without any error having been returned). Returns the
accumulated buffer together with the error that broke the loop. -/
def readLoop : List ReadStep → List Nat → Option (List Nat × GErr)
  | [], _ => none
  | step :: rest, file =>
    let bytes_r := step.chunk.length
    let file := if bytes_r > 0 then file ++ step.chunk else file
    match step.err with
    | some e => some (file, e)
    | none => readLoop rest file

/-- The body of `getFile` after the open step (src/gogridfs.go:70-101).
Takes the result of the open call. On open error, returns with the
zero-value buffer, empty filename, and that error (the early `return` at
line 71). Otherwise reads the file into the buffer; the loop at lines 77-88
binds its error with `:=`, shadowing the named result `err`, which
therefore still holds `nil` from the successful open when the loop breaks.
The check `if err != io.EOF` at line 91 thus always fires (`nil != io.EOF`)
and the function returns the accumulated buffer, the filename, and a nil
error; the `gfsFile.Close()` call at line 96 is unreachable. The
unreachable branch is nevertheless embedded, for faithfulness to the
source text. -/
def drainFile (opened : Except GErr GridFile) :
    Option (List Nat × String × Option GErr) :=
  match opened with
  | .error e => some (([] : List Nat), "", some e)
  | .ok gfsFile =>
    let filename := gfsFile.name
    match readLoop gfsFile.reads [] with
    | none => none
    | some (file, _readErr) =>
      let err : Option GErr := none
      if err ≠ some GErr.eof then
        some (file, filename, err)
      else
        some (file, filename, gfsFile.closeErr)

/-- `getFile` (src/gogridfs.go:60-102): resolve `value` by `_id` when
`field == "_id"`, otherwise by filename, then drain the handle. `none`
models non-termination of the read loop. -/
def getFile (gfs : GridFS) (value field : String) :
    Option (List Nat × String × Option GErr) :=
  drainFile (if field = "_id" then gfs.OpenId value else gfs.Open value)

/-- Instrumented variant of `drainFile` that additionally counts how many
times `gfsFile.Close()` is invoked; identical control flow otherwise. -/
def drainFileT (opened : Except GErr GridFile) :
    Option ((List Nat × String × Option GErr) × Nat) :=
  match opened with
  | .error e => some ((([] : List Nat), "", some e), 0)
  | .ok gfsFile =>
    let filename := gfsFile.name
    match readLoop gfsFile.reads [] with
    | none => none
    | some (file, _readErr) =>
      let err : Option GErr := none
      if err ≠ some GErr.eof then
        some ((file, filename, err), 0)
      else
        some ((file, filename, gfsFile.closeErr), 1)

/-- Instrumented `getFile`: result together with the number of `Close()`
invocations performed during the call. -/
def getFileT (gfs : GridFS) (value field : String) :
    Option ((List Nat × String × Option GErr) × Nat) :=
  drainFileT (if field = "_id" then gfs.OpenId value else gfs.Open value)

/-- An incoming HTTP request, reduced to the one field the handler reads:
`r.URL.Path`. -/
structure Request where
  path : String

/-- The observable response written by `fileHandler`: the status code (the
code never calls `WriteHeader`, so `net/http` sends 200 on the first
write), the `Content-Disposition` header value, and the body bytes. -/
structure Response where
  status : Nat
  contentDisposition : String
  body : List Nat
deriving DecidableEq

/-- Outcome of a call to `fileHandler`: a written response, a panic from
indexing the path string out of range, or divergence inside `getFile`. -/
inductive HandlerOutcome where
  | ok : Response → HandlerOutcome
  | panicked : HandlerOutcome
  | diverged : HandlerOutcome
deriving DecidableEq

/-- Go string slicing `s[n:]` on the character-list model (the caller is
responsible for the `n ≤ s.length` bound; out of range panics). -/
def sliceFrom (s : String) (n : Nat) : String :=
  String.mk (s.data.drop n)

/-- `fileHandler` (src/gogridfs.go:105-127): cut the handle path prefix
from the URL path (line 109, a panic when the path is shorter than the
prefix), fetch the file, log any error (side effect only), set the
`Content-Disposition` header from the resolved filename, and write the
buffer as the body. The debug log of the path (lines 112-114) has no
observable effect on the response and is not modelled. -/
def fileHandler (gfs : GridFS) (conf : Config) (r : Request) :
    HandlerOutcome :=
  if conf.HandlePath.length ≤ r.path.length then
    let path := sliceFrom r.path conf.HandlePath.length
    match getFile gfs path conf.Field with
    | none => .diverged
    | some (data, filename, _err) =>
      let file : gridfile := { Path := path, Data := data }
      .ok { status := 200,
            contentDisposition :=
              "attachment; filename=\"" ++ filename ++ "\"",
            body := file.Data }
  else
    .panicked

/-- A read script that delivers its content and then signals end-of-stream:
every step before the last returns no error, and the last step returns
`io.EOF` (possibly together with a final chunk of data). -/
def eofTerminated : List ReadStep → Bool
  | [] => false
  | [step] => step.err = some GErr.eof
  | step :: rest => step.err = none && eofTerminated rest

/-- The content a read script delivers: the concatenation of its chunks. -/
def scriptContent (steps : List ReadStep) : List Nat :=
  (steps.map ReadStep.chunk).flatten

/- Concrete store values used by the closed witness theorems below. -/

/-- A well-behaved stored object: 5 bytes delivered as a full chunk and a
final chunk arriving together with `io.EOF`. -/
def sampleFile : GridFile :=
  { name := "report.pdf",
    reads := [⟨[10, 20, 30], none⟩, ⟨[40, 50], some GErr.eof⟩],
    closeErr := none }

/-- A second stored object with different content, used to tell the two
resolution strategies apart. -/
def otherFile : GridFile :=
  { name := "other.bin",
    reads := [⟨[99], some GErr.eof⟩],
    closeErr := none }

/-- An object whose stream yields data and then fails with a non-EOF
error. -/
def errFile : GridFile :=
  { name := "errfile",
    reads := [⟨[2, 3], none⟩, ⟨[], some (GErr.other "i/o timeout")⟩],
    closeErr := none }

/-- An object that drains cleanly but whose `Close()` would fail. -/
def closeFailFile : GridFile :=
  { name := "g",
    reads := [⟨[7], some GErr.eof⟩],
    closeErr := some (GErr.other "close failed") }

/-- A store holding `sampleFile` under the identifier `"abc123"` and
nothing under any filename. -/
def storeA : GridFS :=
  { OpenId := fun v =>
      if v = "abc123" then .ok sampleFile else .error (.other "not found"),
    Open := fun _ => .error (.other "not found") }

/-- A store with the same identifier table as `storeA` but a different
filename table: `"abc123"` also resolves as a filename, to `otherFile`. -/
def storeB : GridFS :=
  { OpenId := fun v =>
      if v = "abc123" then .ok sampleFile else .error (.other "not found"),
    Open := fun v =>
      if v = "abc123" then .ok otherFile else .error (.other "not found") }

/-- A store holding `errFile` under the filename `"f"` and `closeFailFile`
under the filename `"g"`. -/
def errStore : GridFS :=
  { OpenId := fun _ => .error (.other "not found"),
    Open := fun v =>
      if v = "f" then .ok errFile
      else if v = "g" then .ok closeFailFile
      else .error (.other "not found") }

/-- Draining an EOF-terminated script returns the accumulator followed by
the script's full content, with `io.EOF` as the breaking error: the chunk
arriving together with the end-of-stream signal is appended before the
loop breaks. -/
theorem readLoop_eof :
    ∀ (steps : List ReadStep) (acc : List Nat),
      eofTerminated steps = true →
      readLoop steps acc = some (acc ++ scriptContent steps, GErr.eof)
  | [], _, h => by simp [eofTerminated] at h
  | [step], acc, h => by
      simp only [eofTerminated, decide_eq_true_eq] at h
      by_cases hc : 0 < step.chunk.length
      · simp [readLoop, scriptContent, h, hc]
      · have hnil : step.chunk = [] := by
          simpa using Nat.eq_zero_of_not_pos hc
        simp [readLoop, scriptContent, h, hnil]
  | step :: next :: rest, acc, h => by
      simp only [eofTerminated, Bool.and_eq_true, decide_eq_true_eq] at h
      have ih := readLoop_eof (next :: rest)
        (if 0 < step.chunk.length then acc ++ step.chunk else acc) h.2
      by_cases hc : 0 < step.chunk.length
      · simp only [readLoop, h.1, hc, if_true] at ih ⊢
        rw [ih]
        simp [scriptContent, List.append_assoc]
      · have hnil : step.chunk = [] := by
          simpa using Nat.eq_zero_of_not_pos hc
        simp only [readLoop, h.1, hc, if_false] at ih ⊢
        rw [ih]
        simp [scriptContent, hnil]

/-- Cutting the handle path off a path that begins with it yields exactly
the suffix. -/
lemma sliceFrom_append (a b : String) : sliceFrom (a ++ b) a.length = b := by
  apply String.ext
  show ((a ++ b).data.drop a.length) = b.data
  rw [String.data_append]
  show ((a.data ++ b.data).drop a.data.length) = b.data
  exact List.drop_left a.data b.data

/-- A string that begins with `a` is at least as long as `a`. -/
lemma length_append_le (a b : String) : a.length ≤ (a ++ b).length := by
  show a.data.length ≤ (a ++ b).data.length
  rw [String.data_append, List.length_append]
  exact Nat.le_add_right _ _

/-- The close-counting instrumentation is faithful: forgetting the counter
recovers `getFile` exactly. -/
lemma getFileT_fst (gfs : GridFS) (value field : String) :
    (getFileT gfs value field).map Prod.fst = getFile gfs value field := by
  unfold getFileT getFile drainFileT drainFile
  cases (if field = "_id" then gfs.OpenId value else gfs.Open value) with
  | error e => rfl
  | ok gf =>
      cases hrl : readLoop gf.reads [] with
      | none => simp [hrl]
      | some p =>
          obtain ⟨file, e⟩ := p
          simp [hrl]

/-- Whenever the open step succeeds and `getFile` returns, the returned
error component is nil: the read-loop error was shadowed and the close
call is unreachable. -/
lemma drainFile_ok_err (gf : GridFile)
    (res : List Nat × String × Option GErr)
    (h : drainFile (Except.ok gf) = some res) : res.2.2 = none := by
  unfold drainFile at h
  cases hrl : readLoop gf.reads [] with
  | none => simp [hrl] at h
  | some p =>
      obtain ⟨file, e⟩ := p
      simp [hrl] at h
      rw [← h]

/-- A returned non-nil error can only come from the open step, where the
buffer and the filename still hold their zero values. -/
lemma getFile_some_err (gfs : GridFS) (value field : String)
    (data : List Nat) (filename : String) (e : GErr)
    (h : getFile gfs value field = some (data, filename, some e)) :
    data = [] ∧ filename = "" := by
  unfold getFile drainFile at h
  cases hop : (if field = "_id" then gfs.OpenId value else gfs.Open value) with
  | error e2 =>
      rw [hop] at h
      simp at h
      exact ⟨h.1, h.2.1.symm⟩
  | ok gf =>
      rw [hop] at h
      cases hrl : readLoop gf.reads [] with
      | none => simp [hrl] at h
      | some p =>
          obtain ⟨file, e2⟩ := p
          simp [hrl] at h

/-- C1: the claim states that when the object opens successfully but a read
fails with a non-EOF error, `getFile` returns a non-nil error, an empty
buffer and an empty name. The code does the opposite: on the concrete store
`errStore`, whose file `"f"` yields `[2, 3]` and then an `"i/o timeout"`
error, `getFile` returns the partial buffer, the resolved name, and a nil
error — the loop-local `err` shadows the named result, so the non-EOF
check at src/gogridfs.go:91 sees nil and returns success. -/
theorem getFile_read_error_result :
    getFile errStore "f" "filename" =
      some ([2, 3], "errfile", none) := by decide

/-- C2: for every store, key, and resolution field, if the open step
succeeds and the handle delivers its chunks as successive reads ending in
`io.EOF` (the final chunk possibly arriving on the same read call as the
end-of-stream signal), `getFile` returns exactly the concatenation of the
delivered chunks, byte for byte, together with the object's name and a nil
error: a chunk arriving with EOF is appended before the loop breaks. -/
theorem getFile_full_content (gfs : GridFS) (value field : String)
    (gf : GridFile)
    (hopen : (if field = "_id" then gfs.OpenId value else gfs.Open value)
        = Except.ok gf)
    (hdel : eofTerminated gf.reads = true) :
    getFile gfs value field =
      some (scriptContent gf.reads, gf.name, none) := by
  unfold getFile
  rw [hopen]
  simp [drainFile, readLoop_eof gf.reads [] hdel]

/-- Witness for C2 at a concrete 5-byte object whose final 2-byte chunk
arrives together with `io.EOF`. -/
theorem getFile_full_content_w :
    ((if "_id" = "_id" then storeA.OpenId "abc123" else storeA.Open "abc123")
        = Except.ok sampleFile) ∧
    eofTerminated sampleFile.reads = true ∧
    getFile storeA "abc123" "_id" =
      some (scriptContent sampleFile.reads, sampleFile.name, none) :=
  ⟨rfl, by decide,
   getFile_full_content storeA "abc123" "_id" sampleFile rfl (by decide)⟩

/-- C3: the claim states that the handle is closed exactly once on every
exit path. In the code the `gfsFile.Close()` call at src/gogridfs.go:96 is
unreachable: the shadowed loop error leaves the named `err` nil, so the
early return at line 92 always fires first. On the concrete store
`errStore`, file `"g"` drains successfully to `io.EOF` and its `Close`
would fail, yet the instrumented `getFileT` records zero `Close`
invocations and a nil returned error. -/
theorem getFile_close_never_invoked :
    getFileT errStore "g" "filename" =
      some (([7], "g", none), 0) := by decide

/-- C4: exactly one resolution strategy is consulted per call, with no
fallback: when the configured field is `"_id"`, the result of `getFile`
depends only on the store's identifier table, and for any other field it
depends only on the filename table — two stores agreeing on the consulted
table give identical results, whatever the other table holds. -/
theorem getFile_single_resolution (g₁ g₂ : GridFS) (value field : String) :
    (field = "_id" → g₁.OpenId value = g₂.OpenId value →
      getFile g₁ value field = getFile g₂ value field) ∧
    (field ≠ "_id" → g₁.Open value = g₂.Open value →
      getFile g₁ value field = getFile g₂ value field) := by
  constructor
  · intro hf he
    simp only [getFile]
    rw [if_pos hf, if_pos hf, he]
  · intro hf he
    simp only [getFile]
    rw [if_neg hf, if_neg hf, he]

/-- Witness for C4: `storeA` and `storeB` share their identifier table but
disagree observably on the filename table at the very same key (which does
look like a valid identifier); under `"_id"` resolution they are
indistinguishable. -/
theorem getFile_single_resolution_w :
    getFile storeA "abc123" "filename" ≠ getFile storeB "abc123" "filename" ∧
    getFile storeA "abc123" "_id" = getFile storeB "abc123" "_id" :=
  ⟨by decide, (getFile_single_resolution storeA storeB "abc123" "_id").1 rfl rfl⟩

/-- A configuration resolving by filename under the prefix `"/f/"`, used by
the handler witnesses. -/
def conf0 : Config :=
  { Servers := [], Logfile := "", Database := "", GridFSCollection := "",
    Field := "filename", Listen := "", HandlePath := "/f/", Debug := false,
    Mode := "" }

/-- C5: the handler never sets a status code, so every written response
carries status 200 regardless of the retrieval outcome; and on every
request whose retrieval fails (a non-nil error from `getFile`, which the
handler only logs), the written response still has status 200, an empty
body, and the attachment header built from the empty resolved name. -/
theorem fileHandler_failure_200_empty (gfs : GridFS) (conf : Config)
    (r : Request) :
    (∀ resp, fileHandler gfs conf r = .ok resp → resp.status = 200) ∧
    (∀ (data : List Nat) (filename : String) (e : GErr),
      conf.HandlePath.length ≤ r.path.length →
      getFile gfs (sliceFrom r.path conf.HandlePath.length) conf.Field
        = some (data, filename, some e) →
      fileHandler gfs conf r =
        .ok { status := 200,
              contentDisposition := "attachment; filename=\"\"",
              body := [] }) := by
  constructor
  · intro resp hresp
    unfold fileHandler at hresp
    by_cases hlen : conf.HandlePath.length ≤ r.path.length
    · rw [if_pos hlen] at hresp
      cases hg : getFile gfs (sliceFrom r.path conf.HandlePath.length)
          conf.Field with
      | none => simp [hg] at hresp
      | some t =>
          obtain ⟨d, fn, er⟩ := t
          simp only [hg] at hresp
          injection hresp with h2
          rw [← h2]
    · rw [if_neg hlen] at hresp
      simp at hresp
  · intro data filename e hlen hget
    obtain ⟨hd, hf⟩ := getFile_some_err gfs _ _ _ _ _ hget
    subst hd
    subst hf
    unfold fileHandler
    rw [if_pos hlen]
    simp only [hget]
    rfl

/-- Witness for C5: a lookup of a key absent from `errStore` still produces
a 200 response with an empty body. -/
theorem fileHandler_failure_200_empty_w :
    fileHandler errStore conf0 { path := "/f/nokey" } =
      .ok { status := 200,
            contentDisposition := "attachment; filename=\"\"",
            body := [] } :=
  (fileHandler_failure_200_empty errStore conf0 ⟨"/f/nokey"⟩).2
    [] "" (.other "not found") (by decide) (by decide)

/-- C6: for every request whose URL path is the configured prefix followed
by a suffix, the handler passes exactly that suffix to `getFile` as the
lookup key (plain prefix removal, no decoding or normalization), and on a
successful retrieval it writes a 200 response whose attachment filename is
the resolved object name and whose body is the full retrieved content. -/
theorem fileHandler_success (gfs : GridFS) (conf : Config) (r : Request)
    (suffix : String) (data : List Nat) (filename : String)
    (hpath : r.path = conf.HandlePath ++ suffix)
    (h : getFile gfs suffix conf.Field = some (data, filename, none)) :
    fileHandler gfs conf r =
      .ok { status := 200,
            contentDisposition :=
              "attachment; filename=\"" ++ filename ++ "\"",
            body := data } := by
  unfold fileHandler
  rw [hpath, if_pos (length_append_le conf.HandlePath suffix),
    sliceFrom_append]
  simp only [h]

/-- A configuration resolving by filename under the prefix `"/files/"`,
used by the success witness. -/
def conf1 : Config :=
  { Servers := [], Logfile := "", Database := "", GridFSCollection := "",
    Field := "filename", Listen := "", HandlePath := "/files/",
    Debug := false, Mode := "" }

/-- Witness for C6: requesting `"/files/abc123"` under prefix `"/files/"`
serves the object stored in `storeB` under the filename `"abc123"`, with
its resolved name in the attachment header and its single content byte as
the body. -/
theorem fileHandler_success_w :
    fileHandler storeB conf1 { path := "/files/abc123" } =
      .ok { status := 200,
            contentDisposition := "attachment; filename=\"other.bin\"",
            body := [99] } :=
  fileHandler_success storeB conf1 ⟨"/files/abc123"⟩ "abc123" [99]
    "other.bin" (by decide) (by decide)

/-- C7: retrieval is idempotent — two invocations of `getFile` on the same
store, key and field that both return yield identical content buffers and
identical resolved names. In this embedding `getFile` is a pure function of
the store state and performs no mutation of it, so determinism is exact. -/
theorem getFile_idempotent (gfs : GridFS) (value field : String)
    (r₁ r₂ : List Nat × String × Option GErr)
    (h₁ : getFile gfs value field = some r₁)
    (h₂ : getFile gfs value field = some r₂) :
    r₁.1 = r₂.1 ∧ r₁.2.1 = r₂.2.1 := by
  cases Option.some.inj (h₁.symm.trans h₂)
  exact ⟨rfl, rfl⟩

/-- The result of retrieving `"abc123"` by identifier from `storeA`. -/
def sampleResult : List Nat × String × Option GErr :=
  ([10, 20, 30, 40, 50], "report.pdf", none)

/-- Witness for C7 at a concrete double retrieval from `storeA`. -/
theorem getFile_idempotent_w :
    sampleResult.1 = sampleResult.1 ∧ sampleResult.2.1 = sampleResult.2.1 :=
  getFile_idempotent storeA "abc123" "_id" sampleResult sampleResult
    (by decide) (by decide)

/-- C8: whenever the open step succeeds, any value `getFile` returns
carries a nil error, whatever the read results or the close result were:
the read-loop error is bound with `:=` and shadows the named result, so the
only non-nil errors `getFile` can return come from the open step itself. -/
theorem getFile_err_nil_after_open (gfs : GridFS) (value field : String)
    (gf : GridFile)
    (hopen : (if field = "_id" then gfs.OpenId value else gfs.Open value)
        = Except.ok gf)
    (res : List Nat × String × Option GErr)
    (hres : getFile gfs value field = some res) :
    res.2.2 = none := by
  unfold getFile at hres
  rw [hopen] at hres
  exact drainFile_ok_err gf res hres

/-- Witness for C8: the store file `"f"` suffers a mid-stream non-EOF read
failure, yet the returned error component is nil. -/
theorem getFile_err_nil_after_open_w :
    getFile errStore "f" "filename" =
      some (([2, 3] : List Nat), "errfile", (none : Option GErr)) ∧
    (([2, 3] : List Nat), "errfile", (none : Option GErr)).2.2 = none :=
  ⟨by decide,
   getFile_err_nil_after_open errStore "f" "filename" errFile rfl
     ([2, 3], "errfile", none) (by decide)⟩

/-- C9: the handler slices the URL path at the prefix length without any
bounds check (src/gogridfs.go:109), so a request whose path is shorter than
the configured prefix panics with a string index out of range; on any path
at least as long as the prefix the slice itself cannot panic. -/
theorem fileHandler_short_path (gfs : GridFS) (conf : Config)
    (r : Request) :
    (r.path.length < conf.HandlePath.length →
      fileHandler gfs conf r = HandlerOutcome.panicked) ∧
    (conf.HandlePath.length ≤ r.path.length →
      fileHandler gfs conf r ≠ HandlerOutcome.panicked) := by
  constructor
  · intro h
    unfold fileHandler
    rw [if_neg (Nat.not_le.mpr h)]
  · intro h
    unfold fileHandler
    rw [if_pos h]
    cases hg : getFile gfs (sliceFrom r.path conf.HandlePath.length)
        conf.Field with
    | none => simp [hg]
    | some t =>
        obtain ⟨d, fn, er⟩ := t
        simp [hg]

/-- Witness for C9: under the prefix `"/f/"` the two-byte path `"/f"`
panics, while the three-byte path `"/f/"` does not. -/
theorem fileHandler_short_path_w :
    fileHandler errStore conf0 { path := "/f" } =
      HandlerOutcome.panicked ∧
    fileHandler errStore conf0 { path := "/f/" } ≠
      HandlerOutcome.panicked :=
  ⟨(fileHandler_short_path errStore conf0 ⟨"/f"⟩).1 (by decide),
   (fileHandler_short_path errStore conf0 ⟨"/f/"⟩).2 (by decide)⟩

/-- C10: the resolution dispatch is the exact, case-sensitive comparison
`field == "_id"` (src/gogridfs.go:64): for any field value other than
exactly `"_id"`, `getFile` resolves through the filename table. -/
theorem getFile_field_case_sensitive (gfs : GridFS) (value field : String)
    (h : field ≠ "_id") :
    getFile gfs value field = drainFile (gfs.Open value) := by
  simp only [getFile]
  rw [if_neg h]

/-- Witness for C10: the field values `"_ID"`, `"id"` and `""` all resolve
by filename. -/
theorem getFile_field_case_sensitive_w :
    getFile storeB "abc123" "_ID" = drainFile (storeB.Open "abc123") ∧
    getFile storeB "abc123" "id" = drainFile (storeB.Open "abc123") ∧
    getFile storeB "abc123" "" = drainFile (storeB.Open "abc123") :=
  ⟨getFile_field_case_sensitive storeB "abc123" "_ID" (by decide),
   getFile_field_case_sensitive storeB "abc123" "id" (by decide),
   getFile_field_case_sensitive storeB "abc123" "" (by decide)⟩
